import Mathlib

/-!
Verification of the extraction-and-comparison core of the QA/QC compliance
application (src/app/extraction.py and src/app/comparison.py).

Modelling conventions (shallow embedding):
* Python `str` is modelled as `List Char` (`Str` below); `str.lower()` as
  `List.map Char.toLower`; `in` (substring test) as `strContains`.
* Python `float` is modelled as `ℚ` (exact rational arithmetic standing in
  for IEEE doubles; every numeric literal appearing in the source and in the
  claims is exactly representable, and the tolerance comparisons of the
  source are reproduced verbatim over `ℚ`).
* `re.search` with the concrete patterns of extraction.py is modelled by a
  small backtracking regular-expression engine (`reM` / `reSearch`) with
  Python semantics: leftmost match position wins, alternatives are tried in
  written order, `*`/`+` are greedy with backtracking, `?` is greedy.
  The source's patterns only use literals, character classes, `*`/`+` over a
  character class, ordered alternation of literals, `?`, and non-nested
  capturing groups, all of which the engine covers.
* `None` is `Option.none`; a Python exception path that the source handles
  (`try ... except ValueError: continue`) is modelled by an `Option`-valued
  parse (`pyFloat`).
-/

abbrev Str := List Char

abbrev Src := List (Str × Str)

/-- Model of the Python whitespace class `\s` (ASCII part). -/
def isSpaceCh (c : Char) : Bool :=
  c == ' ' || c == '\t' || c == '\n' || c == '\r' ||
  c == Char.ofNat 11 || c == Char.ofNat 12

/-- Model of the Python word-character class `\w` (ASCII part). -/
def isWordCh (c : Char) : Bool :=
  c.isAlphanum || c == '_'

/-- Does `w` occur literally at the head of `s`? -/
def litAt : Str → Str → Bool
  | [], _ => true
  | _ :: _, [] => false
  | c :: w, d :: s => c == d && litAt w s

/-- Model of the Python substring test `needle in hay`. -/
def strContains (hay needle : Str) : Bool :=
  match hay with
  | [] => litAt needle []
  | _ :: rest => litAt needle hay || strContains rest needle

/-- Model of Python `str.strip()`. -/
def pyStrip (s : Str) : Str :=
  ((s.dropWhile isSpaceCh).reverse.dropWhile isSpaceCh).reverse

/-- Numeric value of a digit string. -/
def digitsVal (s : Str) : Nat :=
  s.foldl (fun acc c => acc * 10 + (c.toNat - '0'.toNat)) 0

/-- Model of Python `float(...)` restricted to the language of the numeric
capture groups of extraction.py (digits optionally followed by a dot and
digits); everything else is a `ValueError`, i.e. `none`. -/
def pyFloat (s : Str) : Option ℚ :=
  let ip := s.takeWhile Char.isDigit
  let rest := s.dropWhile Char.isDigit
  if ip = [] then none
  else
    match rest with
    | [] => some (digitsVal ip)
    | c :: frac =>
      if c = '.' ∧ frac ≠ [] ∧ frac.all Char.isDigit then
        some ((digitsVal ip : ℚ) + (digitsVal frac : ℚ) / (10 : ℚ) ^ frac.length)
      else none

/-- Regular-expression fragment used by the source's patterns. -/
inductive RE where
  | lit : Str → RE
  | cls : (Char → Bool) → RE
  | star : (Char → Bool) → RE
  | alt : List Str → RE
  | opt : RE → RE
  | grp : RE → RE
  | cat : RE → RE → RE

/-- Length of the maximal run of characters satisfying `f`. -/
def maxRun (f : Char → Bool) : Str → Nat
  | [] => 0
  | c :: rest => if f c then maxRun f rest + 1 else 0

/-- Greedy star: try consuming `n` characters first, then backtrack. -/
def starTry (s : Str) (caps : List Str)
    (k : Str → List Str → Option (List Str)) : Nat → Option (List Str)
  | 0 => k s caps
  | Nat.succ n =>
    match k (s.drop (Nat.succ n)) caps with
    | some res => some res
    | none => starTry s caps k n

/-- Ordered alternation over literal alternatives (Python tries them in
written order and backtracks into later alternatives). -/
def altTry (s : Str) (caps : List Str)
    (k : Str → List Str → Option (List Str)) : List Str → Option (List Str)
  | [] => none
  | w :: rest =>
    if litAt w s then
      match k (s.drop w.length) caps with
      | some res => some res
      | none => altTry s caps k rest
    else altTry s caps k rest

/-- Backtracking matcher in continuation style. `caps` accumulates the
captured groups in opening order (the source's groups are never nested). -/
def reM : RE → Str → List Str → (Str → List Str → Option (List Str)) →
    Option (List Str)
  | RE.lit w, s, caps, k => if litAt w s then k (s.drop w.length) caps else none
  | RE.cls f, s, caps, k =>
    match s with
    | [] => none
    | c :: rest => if f c then k rest caps else none
  | RE.star f, s, caps, k => starTry s caps k (maxRun f s)
  | RE.alt ws, s, caps, k => altTry s caps k ws
  | RE.opt r, s, caps, k =>
    match reM r s caps k with
    | some res => some res
    | none => k s caps
  | RE.grp r, s, caps, k =>
    reM r s caps (fun s2 caps2 => k s2 (caps2 ++ [s.take (s.length - s2.length)]))
  | RE.cat r1 r2, s, caps, k =>
    reM r1 s caps (fun s2 caps2 => reM r2 s2 caps2 k)

/-- Model of Python `re.search`: try each start position from the left and
return the captured groups of the first (leftmost) successful match. -/
def reSearch (r : RE) : Str → Option (List Str)
  | [] => reM r [] [] (fun _ caps => some caps)
  | c :: rest =>
    match reM r (c :: rest) [] (fun _ caps => some caps) with
    | some caps => some caps
    | none => reSearch r rest

/-!
### The concrete patterns of extraction.py

Transliterations of the regular expressions of `parse_nameplate_text`.
`+` over a character class is expanded as `cls f` followed by `star f`
(identical greedy/backtracking semantics).
-/

/-- Character class `[:\-]` (the label/value separator). -/
def sepClass (c : Char) : Bool := c == ':' || c == '-'

/-- Character class `[\w\s&\.]` of the manufacturer value. -/
def mfrClass (c : Char) : Bool :=
  isWordCh c || isSpaceCh c || c == '&' || c == '.'

/-- Character class `[\w\-\/]` of the model and serial-number values. -/
def modelClass (c : Char) : Bool :=
  isWordCh c || c == '-' || c == '/'

/-- A capturing group `(C+)` over a character class `C`. -/
def grpPlus (f : Char → Bool) : RE :=
  RE.grp (RE.cat (RE.cls f) (RE.star f))

/-- `(?:lbl1|lbl2|...)\s*[:\-]\s*(C+)` — the label-prefixed patterns. -/
def labelRE (labels : List Str) (f : Char → Bool) : RE :=
  RE.cat (RE.alt labels)
    (RE.cat (RE.star isSpaceCh)
      (RE.cat (RE.cls sepClass)
        (RE.cat (RE.star isSpaceCh) (grpPlus f))))

/-- `(?:manufacturer|mfr)\s*[:\-]\s*([\w\s&\.]+)` -/
def mfrRE : RE := labelRE ["manufacturer".toList, "mfr".toList] mfrClass

/-- `(?:model|mdl)\s*[:\-]\s*([\w\-\/]+)` -/
def modelRE : RE := labelRE ["model".toList, "mdl".toList] modelClass

/-- `(?:serial number|s\/n|sn)\s*[:\-]\s*([\w\-\/]+)` -/
def snRE : RE :=
  labelRE ["serial number".toList, "s/n".toList, "sn".toList] modelClass

/-- `([0-9]+(?:\.[0-9]+)?)\s*(u1|u2|...)` — the number-then-unit pattern. -/
def numUnitRE (units : List Str) : RE :=
  RE.cat
    (RE.grp (RE.cat (RE.cls Char.isDigit)
      (RE.cat (RE.star Char.isDigit)
        (RE.opt (RE.cat (RE.lit ['.'])
          (RE.cat (RE.cls Char.isDigit) (RE.star Char.isDigit)))))))
    (RE.cat (RE.star isSpaceCh) (RE.grp (RE.alt units)))

/-- `voltage_patterns` of the source. -/
def voltage_patterns : List RE :=
  [numUnitRE ["v".toList, "vac".toList, "volts".toList]]

/-- `current_patterns` of the source. -/
def current_patterns : List RE :=
  [numUnitRE ["a".toList, "amps".toList, "ampere".toList]]

/-- `power_patterns` of the source. -/
def power_patterns : List RE :=
  [numUnitRE ["kw".toList, "kva".toList, "w".toList]]

/-- `frequency_patterns` of the source. -/
def frequency_patterns : List RE :=
  [numUnitRE ["hz".toList]]

/-- `ip\s*([0-9]{2})` -/
def ipRE : RE :=
  RE.cat (RE.lit "ip".toList)
    (RE.cat (RE.star isSpaceCh)
      (RE.grp (RE.cat (RE.cls Char.isDigit) (RE.cls Char.isDigit))))

/-!
### The data model and extraction functions of extraction.py
-/

/-- `AttributeValue` of extraction.py. The `value` slot is typed per field
kind (`Str` for categorical fields, `ℚ` for numeric fields), following the
schema invariant of the source (numeric fields always hold floats). -/
structure AttrVal (α : Type) where
  value : Option α
  unit : Option Str
  source : Src
deriving DecidableEq

/-- `EquipmentData` of extraction.py: the fixed, ordered equipment schema. -/
structure EquipmentData where
  manufacturer : AttrVal Str
  model : AttrVal Str
  serial_number : AttrVal Str
  voltage : AttrVal ℚ
  current : AttrVal ℚ
  power : AttrVal ℚ
  frequency : AttrVal ℚ
  ip_rating : AttrVal Str
  certification : AttrVal Str
deriving DecidableEq

/-- `parse_numeric_with_unit` of extraction.py: try the patterns in order;
on a match, parse group 1 with commas removed (`ValueError` falls through to
the next pattern) and return the value with group 2 as the unit. -/
def parse_numeric_with_unit (text : Str) : List RE → Option ℚ × Option Str
  | [] => (none, none)
  | p :: rest =>
    match reSearch p text with
    | none => parse_numeric_with_unit text rest
    | some caps =>
      match caps[0]? with
      | none => parse_numeric_with_unit text rest
      | some g1 =>
        match pyFloat (g1.filter (fun c => !(c == ','))) with
        | none => parse_numeric_with_unit text rest
        | some v => (some v, caps[1]?)

/-- Manufacturer block of `parse_nameplate_text`. -/
def extract_manufacturer (lower : Str) : AttrVal Str :=
  match reSearch mfrRE lower with
  | some caps =>
    match caps[0]? with
    | some g => AttrVal.mk (some (pyStrip g)) none []
    | none => AttrVal.mk none none []
  | none => AttrVal.mk none none []

/-- Model block of `parse_nameplate_text`. -/
def extract_model (lower : Str) : AttrVal Str :=
  match reSearch modelRE lower with
  | some caps =>
    match caps[0]? with
    | some g => AttrVal.mk (some (pyStrip g)) none []
    | none => AttrVal.mk none none []
  | none => AttrVal.mk none none []

/-- Serial-number block of `parse_nameplate_text`. -/
def extract_serial_number (lower : Str) : AttrVal Str :=
  match reSearch snRE lower with
  | some caps =>
    match caps[0]? with
    | some g => AttrVal.mk (some (pyStrip g)) none []
    | none => AttrVal.mk none none []
  | none => AttrVal.mk none none []

/-- One numeric block of `parse_nameplate_text`: the field is set only when
a value was found, with the matched unit token. -/
def extract_numeric (lower : Str) (pats : List RE) : AttrVal ℚ :=
  match parse_numeric_with_unit lower pats with
  | (some v, u) => AttrVal.mk (some v) u []
  | (none, _) => AttrVal.mk none none []

/-- IP-rating block of `parse_nameplate_text`: stored as `"IP"` plus the two
captured digits. -/
def extract_ip_rating (lower : Str) : AttrVal Str :=
  match reSearch ipRE lower with
  | some caps =>
    match caps[0]? with
    | some g => AttrVal.mk (some ("IP".toList ++ g)) none []
    | none => AttrVal.mk none none []
  | none => AttrVal.mk none none []

/-- The fixed certification keyword set, in the source's iteration order. -/
def certKeywords : List Str := ["atex".toList, "ce".toList, "ul".toList]

/-- Model of Python `", ".join(...)`. -/
def joinComma : List Str → Str
  | [] => []
  | [x] => x
  | x :: y :: rest => x ++ (", ".toList ++ joinComma (y :: rest))

/-- Certification block of `parse_nameplate_text`: collect the upper-cased
keywords whose lower-case form occurs anywhere in the text, joined by
`", "`; the field stays empty when no keyword occurs. -/
def extract_certification (lower : Str) : AttrVal Str :=
  let certs :=
    (certKeywords.filter (fun k => strContains lower k)).map
      (fun k => k.map Char.toUpper)
  if certs = [] then AttrVal.mk none none []
  else AttrVal.mk (some (joinComma certs)) none []

/-- `parse_nameplate_text` of extraction.py. -/
def parse_nameplate_text (text : Str) : EquipmentData :=
  let lower := text.map Char.toLower
  { manufacturer := extract_manufacturer lower
    model := extract_model lower
    serial_number := extract_serial_number lower
    voltage := extract_numeric lower voltage_patterns
    current := extract_numeric lower current_patterns
    power := extract_numeric lower power_patterns
    frequency := extract_numeric lower frequency_patterns
    ip_rating := extract_ip_rating lower
    certification := extract_certification lower }

/-- `parse_submittal_text` of extraction.py delegates to the nameplate
parser. -/
def parse_submittal_text (text : Str) : EquipmentData :=
  parse_nameplate_text text

/-!
### The comparison layer of comparison.py

String-interpolation helpers first: `pyReprQ` models the rendering of a
float value in an f-string (our rationals stand in for floats, so integers
render as `"5.0"` and fractional parts are emitted digit by digit, capped at
17 digits like the shortest-roundtrip repr's maximum length); `format2`
models the `{:.2f}` format; `pyShowOpt` models rendering an optional string,
where Python prints `None` for an absent value.
-/

/-- Decimal digits of the fractional part `x ∈ [0,1)`, at most `k` digits. -/
def fracDigits : Nat → ℚ → Str
  | 0, _ => []
  | Nat.succ k, x =>
    if x = 0 then []
    else
      let d := (⌊x * 10⌋).toNat
      Nat.toDigits 10 d ++ fracDigits k (x * 10 - (d : ℚ))

/-- Model of `f"{v}"` for a float value `v`. -/
def pyReprQ (q : ℚ) : Str :=
  let sign : Str := if q < 0 then ['-'] else []
  let a := |q|
  let fs := fracDigits 17 (a - ((⌊a⌋).toNat : ℚ))
  sign ++ Nat.toDigits 10 (⌊a⌋).toNat ++ ['.'] ++ (if fs = [] then ['0'] else fs)

/-- Model of `f"{v:.2f}"`: round to two decimal places and render with
exactly two fractional digits. -/
def format2 (q : ℚ) : Str :=
  let n : ℤ := round (q * 100)
  let sign : Str := if n < 0 then ['-'] else []
  let m := n.natAbs
  sign ++ Nat.toDigits 10 (m / 100) ++ ['.'] ++
    (if m % 100 < 10 then ['0'] else []) ++ Nat.toDigits 10 (m % 100)

/-- Model of `f"{u}"` for an optional unit string. -/
def pyShowOpt (u : Option Str) : Str :=
  match u with
  | none => "None".toList
  | some s => s

/-- The single-quote character (used when a rationale quotes a value). -/
def quoteCh : Char := Char.ofNat 39

/-- `ComparisonResult` of comparison.py. -/
structure ComparisonResult where
  field : Str
  nameplate_value : Option Str
  submittal_value : Option Str
  status : Str
  comment : Str
  nameplate_source : Src
  submittal_source : Src
deriving DecidableEq

/-- `normalise_power` of comparison.py: convert power to kW; kVA is treated
as kW; an unknown unit is returned unchanged. -/
def normalise_power (value : ℚ) (unit : Option Str) : ℚ :=
  match unit with
  | none => value
  | some u =>
    let u := u.map Char.toLower
    if u = "w".toList then value / 1000
    else if u = "kw".toList ∨ u = "kva".toList then value
    else value

/-- `normalise_voltage` of comparison.py: all units treated as volts. -/
def normalise_voltage (value : ℚ) (unit : Option Str) : ℚ := value

/-- `normalise_current` of comparison.py. -/
def normalise_current (value : ℚ) (unit : Option Str) : ℚ := value

/-- `normalise_frequency` of comparison.py. -/
def normalise_frequency (value : ℚ) (unit : Option Str) : ℚ := value

/-- `compare_numeric` of comparison.py (the `diff_pct` local is inlined).
The source's default tolerance of 5.0 percent is passed explicitly by the
caller. -/
def compare_numeric (n_value : Option ℚ) (n_unit : Option Str)
    (s_value : Option ℚ) (s_unit : Option Str) (tolerance_pct : ℚ) :
    Str × Str :=
  match n_value, s_value with
  | none, none =>
    ("Not Found".toList, "Value missing in both nameplate and submittal.".toList)
  | none, some _ => ("Non-Compliant".toList, "No value on nameplate.".toList)
  | some _, none => ("Non-Compliant".toList, "No value in submittal.".toList)
  | some n_val, some s_val =>
    if n_val = 0 ∧ s_val = 0 then
      ("Compliant".toList, "Both values are zero.".toList)
    else if s_val = 0 then
      ("Non-Compliant".toList,
        "Submittal value is zero while nameplate is ".toList ++
          pyReprQ n_val ++ ['.'])
    else if |n_val - s_val| / s_val * 100 < 1 / 1000000 then
      ("Compliant".toList, "Values are identical.".toList)
    else if |n_val - s_val| / s_val * 100 ≤ tolerance_pct then
      ("Minor Deviation".toList,
        "Difference of ".toList ++ format2 (|n_val - s_val| / s_val * 100) ++
          "% within tolerance.".toList)
    else
      ("Non-Compliant".toList,
        "Difference of ".toList ++ format2 (|n_val - s_val| / s_val * 100) ++
          "% exceeds tolerance.".toList)

/-- `compare_attribute` of comparison.py, numeric branch
(`field in numeric_fields` is true: voltage, current, power, frequency).
The normalisation dispatch on the field name is transliterated verbatim. -/
def compare_attribute_numeric (nameplate_attr submittal_attr : AttrVal ℚ)
    (field : Str) : ComparisonResult :=
  let np_val := nameplate_attr.value
  let np_unit := nameplate_attr.unit
  let sm_val := submittal_attr.value
  let sm_unit := submittal_attr.unit
  let norm := fun (v : ℚ) (u : Option Str) =>
    if field = "power".toList then normalise_power v u
    else if field = "voltage".toList then normalise_voltage v u
    else if field = "current".toList then normalise_current v u
    else normalise_frequency v u
  let sc := compare_numeric (np_val.map (fun v => norm v np_unit)) np_unit
    (sm_val.map (fun v => norm v sm_unit)) sm_unit 5
  { field := field
    nameplate_value := np_val.map (fun v => pyReprQ v ++ [' '] ++ pyShowOpt np_unit)
    submittal_value := sm_val.map (fun v => pyReprQ v ++ [' '] ++ pyShowOpt sm_unit)
    status := sc.1
    comment := sc.2
    nameplate_source := nameplate_attr.source
    submittal_source := submittal_attr.source }

/-- `compare_attribute` of comparison.py, categorical branch
(manufacturer, model, serial_number, ip_rating, certification). -/
def compare_attribute_categorical (nameplate_attr submittal_attr : AttrVal Str)
    (field : Str) : ComparisonResult :=
  let np_val := nameplate_attr.value
  let sm_val := submittal_attr.value
  let sc : Str × Str :=
    match np_val, sm_val with
    | none, none =>
      ("Not Found".toList,
        "Value missing in both nameplate and submittal.".toList)
    | none, some _ => ("Non-Compliant".toList, "No value on nameplate.".toList)
    | some _, none => ("Non-Compliant".toList, "No value in submittal.".toList)
    | some a, some b =>
      if (pyStrip a).map Char.toLower = (pyStrip b).map Char.toLower then
        ("Compliant".toList, "Values match.".toList)
      else
        ("Non-Compliant".toList,
          "Nameplate value ".toList ++ [quoteCh] ++ a ++ [quoteCh] ++
            " differs from submittal value ".toList ++ [quoteCh] ++ b ++ [quoteCh] ++ ['.'])
  { field := field
    nameplate_value := np_val
    submittal_value := sm_val
    status := sc.1
    comment := sc.2
    nameplate_source := nameplate_attr.source
    submittal_source := submittal_attr.source }

/-- The `numeric_fields` set of comparison.py. -/
def numeric_fields : List Str :=
  ["voltage".toList, "current".toList, "power".toList, "frequency".toList]

/-- `compare_equipment` of comparison.py: iterate the schema fields in
declaration order; the `field in numeric_fields` dispatch of
`compare_attribute` is resolved per field (it is decided by the field name
alone). -/
def compare_equipment (nameplate submittal : EquipmentData) :
    List ComparisonResult :=
  [compare_attribute_categorical nameplate.manufacturer submittal.manufacturer
      "manufacturer".toList,
    compare_attribute_categorical nameplate.model submittal.model
      "model".toList,
    compare_attribute_categorical nameplate.serial_number submittal.serial_number
      "serial_number".toList,
    compare_attribute_numeric nameplate.voltage submittal.voltage
      "voltage".toList,
    compare_attribute_numeric nameplate.current submittal.current
      "current".toList,
    compare_attribute_numeric nameplate.power submittal.power
      "power".toList,
    compare_attribute_numeric nameplate.frequency submittal.frequency
      "frequency".toList,
    compare_attribute_categorical nameplate.ip_rating submittal.ip_rating
      "ip_rating".toList,
    compare_attribute_categorical nameplate.certification submittal.certification
      "certification".toList]

/-- The nameplate-side input of the end-to-end extraction example. -/
def exampleNameplateText : Str :=
  "Manufacturer: ABB Model: M100 400V 50Hz IP65 ATEX CE".toList

/-!
### Claim theorems
-/

/-- C1 counterexample: on the end-to-end example input the extracted
manufacturer is not `"abb"` — the capture class `[\w\s&\.]` of the
manufacturer pattern includes whitespace, so the greedy capture also
swallows the following word `model`. -/
theorem C1_counterexample_manufacturer :
    ¬ ((parse_nameplate_text exampleNameplateText).manufacturer.value =
      some ("abb".toList)) := by decide

/-- C1 (amended): for the input text
`"Manufacturer: ABB Model: M100 400V 50Hz IP65 ATEX CE"` extraction returns
manufacturer `"abb model"` (the greedy whitespace-containing capture), model
`"m100"`, voltage `(400, "v")`, frequency `(50, "hz")`, ip_rating `"IP65"`
and certification `"ATEX, CE"` (keyword-set order). -/
theorem C1_amended_extraction :
    (parse_nameplate_text exampleNameplateText).manufacturer.value =
        some ("abb model".toList) ∧
    (parse_nameplate_text exampleNameplateText).model.value =
        some ("m100".toList) ∧
    (parse_nameplate_text exampleNameplateText).voltage =
        AttrVal.mk (some 400) (some ("v".toList)) [] ∧
    (parse_nameplate_text exampleNameplateText).frequency =
        AttrVal.mk (some 50) (some ("hz".toList)) [] ∧
    (parse_nameplate_text exampleNameplateText).ip_rating.value =
        some ("IP65".toList) ∧
    (parse_nameplate_text exampleNameplateText).certification.value =
        some ("ATEX, CE".toList) := by decide

/-- C4: on the input `"1,000 V"` the numeric pattern cannot match across the
thousands separator (its capture group admits only digits and a dot), so the
leftmost match is the digit run `"000"` before `" V"` and the stored voltage
is `0`, not `1000` — the comma-stripping `replace` of
`parse_numeric_with_unit` is unreachable. -/
theorem C4_thousands_separator_voltage :
    (parse_nameplate_text ("1,000 V".toList)).voltage =
      AttrVal.mk (some 0) (some ("v".toList)) [] := by decide

/-- C8: `compare_equipment` always returns exactly one verdict per schema
field, in declaration order (manufacturer, model, serial_number, voltage,
current, power, frequency, ip_rating, certification), for every pair of
records. -/
theorem C8_field_count_and_order (r c : EquipmentData) :
    (compare_equipment r c).length = 9 ∧
    (compare_equipment r c).map ComparisonResult.field =
      ["manufacturer".toList, "model".toList, "serial_number".toList,
        "voltage".toList, "current".toList, "power".toList,
        "frequency".toList, "ip_rating".toList, "certification".toList] :=
  ⟨rfl, rfl⟩

/-- C8 witness at a concrete pair of records. -/
theorem C8_field_count_and_order_witness :
    (compare_equipment (parse_nameplate_text []) (parse_nameplate_text [])).length = 9 ∧
    (compare_equipment (parse_nameplate_text []) (parse_nameplate_text [])).map
        ComparisonResult.field =
      ["manufacturer".toList, "model".toList, "serial_number".toList,
        "voltage".toList, "current".toList, "power".toList,
        "frequency".toList, "ip_rating".toList, "certification".toList] :=
  C8_field_count_and_order (parse_nameplate_text []) (parse_nameplate_text [])

/-- C9: power normalisation treats kW and kVA as numerically equivalent and
divides a W value by 1000; comparing reference `(5000, "w")` with candidate
`(5, "kw")` on the power field is Compliant. -/
theorem C9_power_normalisation :
    (∀ v : ℚ, normalise_power v (some ("kw".toList)) =
        normalise_power v (some ("kva".toList))) ∧
    (∀ v : ℚ, normalise_power v (some ("w".toList)) = v / 1000) ∧
    (compare_attribute_numeric (AttrVal.mk (some 5000) (some ("w".toList)) [])
        (AttrVal.mk (some 5) (some ("kw".toList)) []) ("power".toList)).status =
      "Compliant".toList :=
  ⟨fun _ => rfl, fun _ => rfl, by
    norm_num +decide [compare_attribute_numeric, compare_numeric,
      normalise_power]⟩

/-- C3: numeric comparison is not symmetric under swapping reference and
candidate, because the relative difference is always divided by the
candidate: with reference 100 and candidate 95 the difference is
100/19 ≈ 5.26 % (Non-Compliant), while swapped it is exactly 5 %
(Minor Deviation). -/
theorem C3_asymmetry :
    ∃ a b : ℚ, a ≠ b ∧ a ≠ 0 ∧ b ≠ 0 ∧
      (compare_attribute_numeric (AttrVal.mk (some a) (some ("v".toList)) [])
          (AttrVal.mk (some b) (some ("v".toList)) []) ("voltage".toList)).status ≠
      (compare_attribute_numeric (AttrVal.mk (some b) (some ("v".toList)) [])
          (AttrVal.mk (some a) (some ("v".toList)) []) ("voltage".toList)).status :=
  ⟨100, 95, by norm_num, by norm_num, by norm_num, by
    norm_num +decide [compare_attribute_numeric, compare_numeric,
      normalise_voltage]⟩

/-- C2: with both values present and the candidate (submittal) value
nonzero, a relative difference `d = |reference - candidate| / candidate *
100` with `1e-6 ≤ d ≤ 5` gives Minor Deviation (the 5 % bound is
inclusive) and `d > 5` gives Non-Compliant; in particular 105 vs 100 on
voltage is a Minor Deviation while 106 vs 100 is Non-Compliant. -/
theorem C2_tolerance_boundaries :
    (∀ (n s : ℚ) (u u' : Option Str), s ≠ 0 →
      (1 / 1000000 ≤ |n - s| / s * 100 → |n - s| / s * 100 ≤ 5 →
        (compare_numeric (some n) u (some s) u' 5).1 =
          "Minor Deviation".toList) ∧
      (5 < |n - s| / s * 100 →
        (compare_numeric (some n) u (some s) u' 5).1 =
          "Non-Compliant".toList)) ∧
    (compare_attribute_numeric (AttrVal.mk (some 105) (some ("v".toList)) [])
        (AttrVal.mk (some 100) (some ("v".toList)) [])
        ("voltage".toList)).status = "Minor Deviation".toList ∧
    (compare_attribute_numeric (AttrVal.mk (some 106) (some ("v".toList)) [])
        (AttrVal.mk (some 100) (some ("v".toList)) [])
        ("voltage".toList)).status = "Non-Compliant".toList := by
  refine ⟨?_, ?_, ?_⟩
  · intro n s u u' hs
    constructor
    · intro h1 h2
      simp only [compare_numeric]
      rw [if_neg (fun h => hs h.2), if_neg hs, if_neg (not_lt.mpr h1),
        if_pos h2]
    · intro h3
      simp only [compare_numeric]
      rw [if_neg (fun h => hs h.2), if_neg hs,
        if_neg (not_lt.mpr (le_trans (by norm_num) h3.le)),
        if_neg (not_le.mpr h3)]
  · norm_num +decide [compare_attribute_numeric, compare_numeric,
      normalise_voltage]
  · norm_num +decide [compare_attribute_numeric, compare_numeric,
      normalise_voltage]

/-- C2 witness: the two tolerance branches of the universal part,
instantiated at 105 vs 100 and 112 vs 100. -/
theorem C2_tolerance_boundaries_witness :
    (compare_numeric (some 105) none (some 100) none 5).1 =
      "Minor Deviation".toList ∧
    (compare_numeric (some 112) none (some 100) none 5).1 =
      "Non-Compliant".toList :=
  ⟨(C2_tolerance_boundaries.1 105 100 none none (by norm_num)).1
      (by rw [show |(105:ℚ) - 100| = 5 by norm_num]; norm_num)
      (by rw [show |(105:ℚ) - 100| = 5 by norm_num]; norm_num),
    (C2_tolerance_boundaries.1 112 100 none none (by norm_num)).2
      (by rw [show |(112:ℚ) - 100| = 12 by norm_num]; norm_num)⟩

/-- C6: numeric comparison never divides by zero — when both values are
zero the verdict is Compliant with rationale "Both values are zero.", and
when the candidate is zero but the reference is not, the verdict is
Non-Compliant with a rationale stating the reference magnitude. -/
theorem C6_zero_handling :
    (∀ (u u' : Option Str),
      compare_numeric (some 0) u (some 0) u' 5 =
        ("Compliant".toList, "Both values are zero.".toList)) ∧
    (∀ (n : ℚ) (u u' : Option Str), n ≠ 0 →
      compare_numeric (some n) u (some 0) u' 5 =
        ("Non-Compliant".toList,
          "Submittal value is zero while nameplate is ".toList ++
            pyReprQ n ++ ['.'])) := by
  constructor
  · intro u u'
    simp [compare_numeric]
  · intro n u u' hn
    simp [compare_numeric, hn]

/-- C6 witness: candidate zero, reference 7. -/
theorem C6_zero_handling_witness :
    compare_numeric (some 7) none (some 0) none 5 =
      ("Non-Compliant".toList,
        "Submittal value is zero while nameplate is ".toList ++
          pyReprQ 7 ++ ['.']) :=
  C6_zero_handling.2 7 none none (by norm_num)

/-- C7: for every field of either kind, missing values are handled the same
way — both sides absent gives Not Found with the "missing in both" rationale,
and exactly one side absent gives Non-Compliant with a rationale naming the
missing side (nameplate or submittal). -/
theorem C7_missing_value_handling :
    (∀ (f : Str) (u u' : Option Str) (p p' : Src),
      compare_attribute_numeric (AttrVal.mk none u p) (AttrVal.mk none u' p') f =
        ComparisonResult.mk f none none ("Not Found".toList)
          ("Value missing in both nameplate and submittal.".toList) p p') ∧
    (∀ (f : Str) (v : ℚ) (u u' : Option Str) (p p' : Src),
      (compare_attribute_numeric (AttrVal.mk none u p)
          (AttrVal.mk (some v) u' p') f).status = "Non-Compliant".toList ∧
      (compare_attribute_numeric (AttrVal.mk none u p)
          (AttrVal.mk (some v) u' p') f).comment =
        "No value on nameplate.".toList) ∧
    (∀ (f : Str) (v : ℚ) (u u' : Option Str) (p p' : Src),
      (compare_attribute_numeric (AttrVal.mk (some v) u p)
          (AttrVal.mk none u' p') f).status = "Non-Compliant".toList ∧
      (compare_attribute_numeric (AttrVal.mk (some v) u p)
          (AttrVal.mk none u' p') f).comment =
        "No value in submittal.".toList) ∧
    (∀ (f : Str) (u u' : Option Str) (p p' : Src),
      compare_attribute_categorical (AttrVal.mk none u p)
          (AttrVal.mk none u' p') f =
        ComparisonResult.mk f none none ("Not Found".toList)
          ("Value missing in both nameplate and submittal.".toList) p p') ∧
    (∀ (f v : Str) (u u' : Option Str) (p p' : Src),
      (compare_attribute_categorical (AttrVal.mk none u p)
          (AttrVal.mk (some v) u' p') f).status = "Non-Compliant".toList ∧
      (compare_attribute_categorical (AttrVal.mk none u p)
          (AttrVal.mk (some v) u' p') f).comment =
        "No value on nameplate.".toList) ∧
    (∀ (f v : Str) (u u' : Option Str) (p p' : Src),
      (compare_attribute_categorical (AttrVal.mk (some v) u p)
          (AttrVal.mk none u' p') f).status = "Non-Compliant".toList ∧
      (compare_attribute_categorical (AttrVal.mk (some v) u p)
          (AttrVal.mk none u' p') f).comment =
        "No value in submittal.".toList) :=
  ⟨fun _ _ _ _ _ => rfl, fun _ _ _ _ _ _ => ⟨rfl, rfl⟩,
    fun _ _ _ _ _ _ => ⟨rfl, rfl⟩, fun _ _ _ _ _ => rfl,
    fun _ _ _ _ _ _ => ⟨rfl, rfl⟩, fun _ _ _ _ _ _ => ⟨rfl, rfl⟩⟩

/-- C5: extraction is total (it is a total function of its input in this
model, mirroring that the source handles every parse failure): the empty
string yields a record whose fields are all absent, and a numeric-pattern
scan either produces a value or degrades to exactly `(none, none)` — never
an error and never a unit without a value. -/
theorem C5_extraction_totality :
    parse_nameplate_text [] =
      { manufacturer := AttrVal.mk none none [],
        model := AttrVal.mk none none [],
        serial_number := AttrVal.mk none none [],
        voltage := AttrVal.mk none none [],
        current := AttrVal.mk none none [],
        power := AttrVal.mk none none [],
        frequency := AttrVal.mk none none [],
        ip_rating := AttrVal.mk none none [],
        certification := AttrVal.mk none none [] } ∧
    ∀ (text : Str) (pats : List RE),
      (∃ v, (parse_numeric_with_unit text pats).1 = some v) ∨
        parse_numeric_with_unit text pats = (none, none) := by
  constructor
  · decide
  · intro text pats
    induction pats with
    | nil => exact Or.inr rfl
    | cons p rest ih =>
      cases hs : reSearch p text with
      | none => simpa [parse_numeric_with_unit, hs] using ih
      | some caps =>
        cases hg : caps[0]? with
        | none => simpa [parse_numeric_with_unit, hs, hg] using ih
        | some g =>
          cases hf : pyFloat (g.filter (fun c => !(c == ','))) with
          | none => simpa [parse_numeric_with_unit, hs, hg, hf] using ih
          | some v =>
            exact Or.inl ⟨v, by simp [parse_numeric_with_unit, hs, hg, hf]⟩

/-- A string is a literal prefix of itself. -/
theorem litAt_refl (s : Str) : litAt s s = true := by
  induction s with
  | nil => rfl
  | cons c rest ih => simp [litAt, ih]

/-- A literal prefix stays a prefix after appending on the right. -/
theorem litAt_append (x : Str) : ∀ s t : Str, litAt x s = true →
    litAt x (s ++ t) = true := by
  induction x with
  | nil => intro s t _; rfl
  | cons c w ih =>
    intro s t h
    cases s with
    | nil => simp [litAt] at h
    | cons d s2 =>
      simp only [litAt, Bool.and_eq_true] at h
      simp [litAt, h.1, ih s2 t h.2]

/-- Every string contains the empty string. -/
theorem strContains_nil (hay : Str) : strContains hay [] = true := by
  cases hay with
  | nil => rfl
  | cons c rest => simp [strContains, litAt]

/-- Every string contains itself. -/
theorem strContains_self (x : Str) : strContains x x = true := by
  cases x with
  | nil => rfl
  | cons c rest => simp [strContains, litAt_refl]

/-- Containment is preserved by appending on the right. -/
theorem strContains_append_left (b x : Str) : ∀ a : Str,
    strContains a x = true → strContains (a ++ b) x = true := by
  intro a
  induction a with
  | nil =>
    intro h
    cases x with
    | nil => simpa using strContains_nil b
    | cons c w => simp [strContains, litAt] at h
  | cons c a2 ih =>
    intro h
    simp only [strContains, Bool.or_eq_true] at h
    rcases h with h | h
    · have := litAt_append x (c :: a2) b h
      simp only [List.cons_append, strContains, Bool.or_eq_true]
      exact Or.inl (by simpa using this)
    · simp only [List.cons_append, strContains, Bool.or_eq_true]
      exact Or.inr (ih h)

/-- Containment is preserved by prepending on the left. -/
theorem strContains_append_right (b x : Str) : ∀ a : Str,
    strContains b x = true → strContains (a ++ b) x = true := by
  intro a
  induction a with
  | nil => intro h; simpa using h
  | cons c a2 ih =>
    intro h
    simp only [List.cons_append, strContains, Bool.or_eq_true]
    exact Or.inr (ih h)

/-- Every member of a joined list occurs in the join as a substring. -/
theorem strContains_joinComma (x : Str) : ∀ l : List Str, x ∈ l →
    strContains (joinComma l) x = true := by
  intro l
  induction l with
  | nil => intro h; cases h
  | cons a rest ih =>
    intro h
    cases rest with
    | nil =>
      rcases List.mem_singleton.mp h with rfl
      exact strContains_self x
    | cons b t =>
      rcases List.mem_cons.mp h with h1 | h2
      · subst h1
        exact strContains_append_left _ _ _ (strContains_self _)
      · exact strContains_append_right _ _ _
          (strContains_append_right _ _ _ (ih h2))

/-- C10: certification extraction uses raw substring containment — whenever
the case-folded input contains one of the keywords "atex", "ce", "ul"
anywhere (also inside a longer word), the extracted certification value is
present and contains the corresponding upper-cased keyword. -/
theorem C10_certification_substring (text kw : Str)
    (hkw : kw ∈ certKeywords)
    (hsub : strContains (text.map Char.toLower) kw = true) :
    ∃ v, (parse_nameplate_text text).certification.value = some v ∧
      strContains v (kw.map Char.toUpper) = true := by
  have hc : (parse_nameplate_text text).certification =
      extract_certification (text.map Char.toLower) := rfl
  rw [hc]
  have hmem : kw.map Char.toUpper ∈
      (certKeywords.filter
        (fun k => strContains (text.map Char.toLower) k)).map
        (fun k => k.map Char.toUpper) :=
    List.mem_map_of_mem _ (List.mem_filter.mpr ⟨hkw, hsub⟩)
  have hne : ¬((certKeywords.filter
      (fun k => strContains (text.map Char.toLower) k)).map
      (fun k => k.map Char.toUpper) = []) :=
    List.ne_nil_of_mem hmem
  simp only [extract_certification]
  rw [if_neg hne]
  exact ⟨_, rfl, strContains_joinComma _ _ hmem⟩

/-- C10 witness: the keyword "ce" occurring inside the word "Certificate". -/
theorem C10_certification_substring_witness :
    ∃ v, (parse_nameplate_text ("Certificate".toList)).certification.value =
        some v ∧
      strContains v (("ce".toList).map Char.toUpper) = true :=
  C10_certification_substring ("Certificate".toList) ("ce".toList)
    (by decide) (by decide)
